import Mathlib

/-!
A verification development for the query-dispatch and response-normalization
client `DataSourceWithBackend` (grafana-runtime). The TypeScript source is
embedded shallowly: the overridable hooks (`filterQuery`,
`applyTemplateVariables`) become function-valued fields, the global
configuration store becomes an explicit `GrafanaConfig` argument, the
transport becomes a function from the outbound call to a success-or-error
value, and the external decoding routine `toDataQueryResponse` becomes an
explicit function argument. The observable/promise effects are modelled by
result types that record whether an outbound call was made (`QueryResult`,
`AnnoResult`): the only constructor carrying a `FetchCall` is the one in
which the transport was actually invoked.
-/

/-- JavaScript truthiness of an optional string value, as used by
`if (q.datasource)`: `undefined` and the empty string are falsy. -/
def truthyStr : Option String → Bool
  | none => false
  | some s => s ≠ ""

/-- JavaScript `a || b` on an optional string (`undefined` and `""` are falsy). -/
def jsOrStr (a : Option String) (b : String) : String :=
  match a with
  | none => b
  | some s => if s = "" then b else s

/-- JavaScript `a || b` on an optional number (`undefined` and `0` are falsy). -/
def jsOrNat (a : Option Nat) (b : Nat) : Nat :=
  match a with
  | none => b
  | some n => if n = 0 then b else n

/-- `const ExpressionDatasourceID = '__expr__'`. -/
def ExpressionDatasourceID : String := "__expr__"

/-- Scoped template variables (`ScopedVars`), modelled as an association list. -/
def ScopedVars : Type := List (String × String)

instance : DecidableEq ScopedVars := by
  unfold ScopedVars
  infer_instance

/-- One query target (`DataQuery`): an optional backend reference
(`datasource`) plus opaque query-specific content, stood for by `refId` and
`payload`. -/
structure DataQuery where
  refId : String
  datasource : Option String
  payload : Nat
deriving DecidableEq

/-- A time range; `fromMs`/`toMs` model `range.from.valueOf()` /
`range.to.valueOf()` (millisecond epochs). -/
structure TimeRange where
  fromMs : Nat
  toMs : Nat
deriving DecidableEq

/-- The batch request (`DataQueryRequest`) fields the client reads. -/
structure DataQueryRequest where
  requestId : String
  interval : Option String
  intervalMs : Option Nat
  maxDataPoints : Option Nat
  range : Option TimeRange
  rangeRaw : Option TimeRange
  scopedVars : ScopedVars
  startTime : Option Nat
  timezone : Option String
  targets : List DataQuery
deriving DecidableEq

/-- One annotated target of the outbound payload, mirroring the two return
branches of the `targets.map` in `query`: an expression-marked target is
passed through with only `datasourceId`/`orgId` added, every other target is
the substituted query plus `datasourceId`, `intervalMs`, `maxDataPoints`,
`orgId`. -/
inductive PayloadQuery where
  | exprQuery (q : DataQuery) (datasourceId : Nat) (orgId : Nat)
  | stdQuery (q : DataQuery) (datasourceId : Nat) (intervalMs : Option Nat)
      (maxDataPoints : Option Nat) (orgId : Nat)
deriving DecidableEq

/-- The `intervalMs` annotation of a payload entry: `none` when the entry has
no such key at all (the expression branch adds none). -/
def PayloadQuery.intervalTag : PayloadQuery → Option (Option Nat)
  | .exprQuery _ _ _ => none
  | .stdQuery _ _ im _ _ => some im

/-- The `maxDataPoints` annotation of a payload entry: `none` when the entry
has no such key at all (the expression branch adds none). -/
def PayloadQuery.maxDataPointsTag : PayloadQuery → Option (Option Nat)
  | .exprQuery _ _ _ => none
  | .stdQuery _ _ _ mdp _ => some mdp

/-- The global runtime configuration store read by `query`:
`config.bootData.user.orgId`, `config.defaultDatasource`, and the
name-to-datasource table `config.datasources` (only the `id` field of an
entry is consumed). -/
structure GrafanaConfig where
  orgId : Nat
  defaultDatasource : String
  datasources : String → Option Nat

/-- A decoded result frame (opaque to this client). -/
structure Frame where
  frameId : Nat
deriving DecidableEq

/-- The normalized result (`DataQueryResponse`): decoded frames plus an
optional normalized error code. -/
structure DataQueryResponse where
  data : List Frame
  error : Option Nat
deriving DecidableEq

/-- A raw successful transport reply (opaque; carries what decodes to frames). -/
structure RawReply where
  frames : List Frame
deriving DecidableEq

/-- A raw transport failure value (network error, non-2xx, ...). -/
structure TransportError where
  code : Nat
deriving DecidableEq

/-- The single outbound call issued by `query`:
`fetch({ url, method, data, requestId })`. -/
structure RequestBody where
  queries : List PayloadQuery
  range : Option TimeRange
  fromStr : Option String
  toStr : Option String
deriving DecidableEq

structure FetchCall where
  url : String
  method : String
  data : RequestBody
  requestId : String
deriving DecidableEq

/-- The error thrown synchronously while building the payload:
`throw new Error('Unknown Datasource: ' + q.datasource)`, carrying the
offending reference. -/
inductive BuildError where
  | unknownDatasource (ref : String)
deriving DecidableEq

/-- The instance state and overridable hooks of `DataSourceWithBackend` that
`query` consumes: `this.id`, the optional `filterQuery` hook and the
`applyTemplateVariables` hook. -/
structure DataSourceWithBackend where
  id : Nat
  filterQuery : Option (DataQuery → Bool)
  applyTemplateVariables : DataQuery → ScopedVars → DataQuery

/-- The base-class `applyTemplateVariables`: returns the query unchanged. -/
def defaultApplyTemplateVariables (q : DataQuery) (_sv : ScopedVars) : DataQuery :=
  q

/-- `let targets = request.targets; if (this.filterQuery) targets =
targets.filter(q => this.filterQuery!(q))`. -/
def queryTargets (ds : DataSourceWithBackend) (req : DataQueryRequest) : List DataQuery :=
  match ds.filterQuery with
  | none => req.targets
  | some p => req.targets.filter p

/-- The body of the `targets.map` callback in `query`: resolve the backend
id (expression marker → pass-through with `selfId`/`orgId`; truthy reference
→ table lookup, with `"default"` first replaced by the configured default
name, throwing on a missing entry; absent reference → `selfId`) and annotate
the (substituted) target. -/
def buildQuery (ds : DataSourceWithBackend) (cfg : GrafanaConfig)
    (req : DataQueryRequest) (q : DataQuery) : Except BuildError PayloadQuery :=
  if q.datasource = some ExpressionDatasourceID then
    Except.ok (PayloadQuery.exprQuery q ds.id cfg.orgId)
  else if truthyStr q.datasource then
    let dsName := if q.datasource = some "default" then cfg.defaultDatasource
      else q.datasource.getD ""
    match cfg.datasources dsName with
    | none => Except.error (BuildError.unknownDatasource (q.datasource.getD ""))
    | some dsId =>
      Except.ok (PayloadQuery.stdQuery (ds.applyTemplateVariables q req.scopedVars)
        dsId req.intervalMs req.maxDataPoints cfg.orgId)
  else
    Except.ok (PayloadQuery.stdQuery (ds.applyTemplateVariables q req.scopedVars)
      ds.id req.intervalMs req.maxDataPoints cfg.orgId)

/-- `targets.map(...)` with the map callback able to throw: the first throw
aborts the whole traversal (JavaScript evaluates the callback left to right). -/
def buildQueriesGo (ds : DataSourceWithBackend) (cfg : GrafanaConfig)
    (req : DataQueryRequest) : List DataQuery → Except BuildError (List PayloadQuery)
  | [] => Except.ok []
  | q :: qs =>
    match buildQuery ds cfg req q with
    | Except.error e => Except.error e
    | Except.ok pq =>
      match buildQueriesGo ds cfg req qs with
      | Except.error e => Except.error e
      | Except.ok rest => Except.ok (pq :: rest)

/-- `const queries = targets.map(...)` over the filtered target list. -/
def buildQueries (ds : DataSourceWithBackend) (cfg : GrafanaConfig)
    (req : DataQueryRequest) : Except BuildError (List PayloadQuery) :=
  buildQueriesGo ds cfg req (queryTargets ds req)

/-- `const body: any = { queries }; if (range) { body.range = range;
body.from = range.from.valueOf().toString(); body.to =
range.to.valueOf().toString(); }`. -/
def mkBody (queries : List PayloadQuery) (range : Option TimeRange) : RequestBody :=
  match range with
  | none => { queries := queries, range := none, fromStr := none, toStr := none }
  | some r =>
    { queries := queries, range := some r,
      fromStr := some (toString r.fromMs), toStr := some (toString r.toMs) }

/-- The single outbound call of `query`:
`getBackendSrv().fetch({ url: '/api/ds/query', method: 'POST', data: body,
requestId })`. -/
def queryCall (queries : List PayloadQuery) (req : DataQueryRequest) : FetchCall :=
  { url := "/api/ds/query", method := "POST",
    data := mkBody queries req.range, requestId := req.requestId }

/-- The observable outcome of one `query` invocation. `thrown` models the
synchronous exception escaping before any outbound call; `immediate` models
`of({ data: [] })` returned without invoking the transport; `fetched` is the
one outcome in which the transport was invoked, and records the call made
together with the response emitted after the `map`/`catchError` pipeline. -/
inductive QueryResult where
  | thrown (e : BuildError)
  | immediate (rsp : DataQueryResponse)
  | fetched (call : FetchCall) (rsp : DataQueryResponse)
deriving DecidableEq

/-- `DataSourceWithBackend.query`, with the transport and the external
decoding routine `toDataQueryResponse` passed explicitly. On transport
success the reply is decoded (`map(rsp => toDataQueryResponse(rsp))`); on
transport failure the error value itself is routed through the same routine
(`catchError(err => of(toDataQueryResponse(err)))`). -/
def DataSourceWithBackend.query (ds : DataSourceWithBackend) (cfg : GrafanaConfig)
    (transport : FetchCall → Except TransportError RawReply)
    (decode : RawReply ⊕ TransportError → DataQueryResponse)
    (req : DataQueryRequest) : QueryResult :=
  match buildQueries ds cfg req with
  | Except.error e => QueryResult.thrown e
  | Except.ok queries =>
    if queries.isEmpty then
      QueryResult.immediate { data := [], error := none }
    else
      let call := queryCall queries req
      match transport call with
      | Except.ok rsp => QueryResult.fetched call (decode (Sum.inl rsp))
      | Except.error err => QueryResult.fetched call (decode (Sum.inr err))

/-- A structured annotation event produced by frame extraction (opaque
content). -/
structure AnnotationEvent where
  time : Nat
  text : String
deriving DecidableEq

/-- The dashboard owning the annotation (only `timezone` is read). -/
structure Dashboard where
  timezone : String
deriving DecidableEq

/-- The annotation definition `options.annotation`: the enable flag and the
optional inline query `(options.annotation as any).annotation` used by the
second revision when no preparation hook exists. -/
structure AnnotationSpec where
  enable : Bool
  inlineQuery : Option DataQuery
deriving DecidableEq

/-- The annotation request (`AnnotationQueryRequest`) fields the client
reads; the field `annotationSpec` models `options.annotation`. -/
structure AnnotationQueryRequest where
  range : Option TimeRange
  rangeRaw : Option TimeRange
  interval : Option String
  intervalMs : Option Nat
  dashboard : Dashboard
  annotationSpec : AnnotationSpec
deriving DecidableEq

/-- What the first revision's `prepareAnnotationQuery` hook returns:
`{ query: TQuery; processor?: (rsp) => AnnotationEvent[] }` (the `query`
value is checked for truthiness, so it is optional here). -/
structure PreparedAnno where
  queryOpt : Option DataQuery
  processor : Option (DataQueryResponse → List AnnotationEvent)

/-- The outcome of one `annotationQuery` invocation: either the promise
resolves with an event list (`calls` records every outbound transport call
made along the way), or it rejects because the inner `query` threw
synchronously. -/
inductive AnnoResult where
  | resolved (events : List AnnotationEvent) (calls : List FetchCall)
  | thrown (e : BuildError)
deriving DecidableEq

/-- The batch request composed by the first revision's `annotationQuery`:
`const { annotation, ...rest } = options; this.query({ ...rest, requestId:
anno-startTime, startTime, scopedVars: {}, timezone:
options.dashboard.timezone, targets: [query] })` — the spread passes
`range`/`rangeRaw`/`interval`/`intervalMs` through from the annotation
request unchanged, and `now` stands for `Date.now()`. -/
def composeAnnoRequestA (options : AnnotationQueryRequest) (now : Nat)
    (q : DataQuery) : DataQueryRequest :=
  { requestId := "anno-" ++ toString now
    interval := options.interval
    intervalMs := options.intervalMs
    maxDataPoints := none
    range := options.range
    rangeRaw := options.rangeRaw
    scopedVars := []
    startTime := some now
    timezone := some options.dashboard.timezone
    targets := [q] }

/-- The batch request composed by the second revision's `annotationQuery`:
an explicit object with `interval: (options as any).interval || '1m'` and
`intervalMs: (options as any).intervalMs || 60000`; `now` stands for
`Date.now()`. -/
def composeAnnoRequestB (options : AnnotationQueryRequest) (now : Nat)
    (q : DataQuery) : DataQueryRequest :=
  { requestId := "anno-" ++ toString now
    interval := some (jsOrStr options.interval "1m")
    intervalMs := some (jsOrNat options.intervalMs 60000)
    maxDataPoints := none
    range := options.range
    rangeRaw := options.rangeRaw
    scopedVars := []
    startTime := some now
    timezone := some options.dashboard.timezone
    targets := [q] }

/-- The first revision's `.then` handler: `if (rsp.data?.length) { if
(processor) return processor(rsp); return
getAnnotationsFromFrame(rsp.data[0]).events } return []`. `extract` models
the external `getAnnotationsFromFrame(...).events`. -/
def processAnnotationResponseA
    (processor : Option (DataQueryResponse → List AnnotationEvent))
    (extract : Frame → List AnnotationEvent)
    (rsp : DataQueryResponse) : List AnnotationEvent :=
  match rsp.data with
  | [] => []
  | f :: _ =>
    match processor with
    | some p => p rsp
    | none => extract f

/-- The second revision's `.then` handler: `if (rsp.data?.length) return
getAnnotationsFromFrame(rsp.data[0]).events; return []` (the editor-only
`window.lastAnnotationQuery` assignment does not affect the result). -/
def processAnnotationResponseB (extract : Frame → List AnnotationEvent)
    (rsp : DataQueryResponse) : List AnnotationEvent :=
  match rsp.data with
  | [] => []
  | f :: _ => extract f

/-- The first revision's `annotationQuery`: gate on
`!this.prepareAnnotationQuery || !!!options.annotation.enable`, then on the
hook's `query` being falsy; on passing, dispatch the composed single-target
request through `query` and run the `.then` handler on the emitted response. -/
def annotationQueryA (ds : DataSourceWithBackend) (cfg : GrafanaConfig)
    (transport : FetchCall → Except TransportError RawReply)
    (decode : RawReply ⊕ TransportError → DataQueryResponse)
    (prepare : Option (AnnotationQueryRequest → PreparedAnno))
    (extract : Frame → List AnnotationEvent)
    (now : Nat) (options : AnnotationQueryRequest) : AnnoResult :=
  match prepare with
  | none => AnnoResult.resolved [] []
  | some prep =>
    if !options.annotationSpec.enable then AnnoResult.resolved [] []
    else
      let pa := prep options
      match pa.queryOpt with
      | none => AnnoResult.resolved [] []
      | some q =>
        match ds.query cfg transport decode (composeAnnoRequestA options now q) with
        | QueryResult.thrown e => AnnoResult.thrown e
        | QueryResult.immediate rsp =>
          AnnoResult.resolved (processAnnotationResponseA pa.processor extract rsp) []
        | QueryResult.fetched call rsp =>
          AnnoResult.resolved (processAnnotationResponseA pa.processor extract rsp) [call]

/-- The second revision's resolution of the annotation query payload:
`this.prepareAnnotationQuery ? this.prepareAnnotationQuery(options) :
(options.annotation as any).annotation`. -/
def resolveAnnoQueryB (prepare : Option (AnnotationQueryRequest → Option DataQuery))
    (options : AnnotationQueryRequest) : Option DataQuery :=
  match prepare with
  | some prep => prep options
  | none => options.annotationSpec.inlineQuery

/-- The second revision's `annotationQuery`: resolve the query payload (hook
or inline), gate on `!query || !!!options.annotation.enable`, then dispatch
the composed single-target request and extract events from the first frame. -/
def annotationQueryB (ds : DataSourceWithBackend) (cfg : GrafanaConfig)
    (transport : FetchCall → Except TransportError RawReply)
    (decode : RawReply ⊕ TransportError → DataQueryResponse)
    (prepare : Option (AnnotationQueryRequest → Option DataQuery))
    (extract : Frame → List AnnotationEvent)
    (now : Nat) (options : AnnotationQueryRequest) : AnnoResult :=
  match resolveAnnoQueryB prepare options with
  | none => AnnoResult.resolved [] []
  | some q =>
    if !options.annotationSpec.enable then AnnoResult.resolved [] []
    else
      match ds.query cfg transport decode (composeAnnoRequestB options now q) with
      | QueryResult.thrown e => AnnoResult.thrown e
      | QueryResult.immediate rsp =>
        AnnoResult.resolved (processAnnotationResponseB extract rsp) []
      | QueryResult.fetched call rsp =>
        AnnoResult.resolved (processAnnotationResponseB extract rsp) [call]

/-- Modelled from the spec: the external decoding routine
`toDataQueryResponse` (not part of the sources in scope) accepts either a
raw success reply or a transport error value and normalizes both; a
NormalizedResult-failure carries a normalized error description and no
result frames. -/
def toDataQueryResponse : RawReply ⊕ TransportError → DataQueryResponse
  | Sum.inl r => { data := r.frames, error := none }
  | Sum.inr e => { data := [], error := some e.code }

/-! Concrete fixtures used by the witness theorems. -/

def dsPlain : DataSourceWithBackend :=
  { id := 1, filterQuery := none, applyTemplateVariables := defaultApplyTemplateVariables }

def cfg0 : GrafanaConfig :=
  { orgId := 42, defaultDatasource := "dd",
    datasources := fun s => if s = "dd" then some 7 else if s = "named" then some 9 else none }

def transportOk : FetchCall → Except TransportError RawReply :=
  fun _ => Except.ok { frames := [{ frameId := 5 }] }

def transportFail : FetchCall → Except TransportError RawReply :=
  fun _ => Except.error { code := 3 }

def q_plain : DataQuery := { refId := "A", datasource := none, payload := 0 }

def q_expr : DataQuery :=
  { refId := "E", datasource := some ExpressionDatasourceID, payload := 1 }

def q_default : DataQuery := { refId := "D", datasource := some "default", payload := 2 }

def q_unknown : DataQuery := { refId := "U", datasource := some "nope", payload := 3 }

def req0 : DataQueryRequest :=
  { requestId := "r0", interval := none, intervalMs := some 30000,
    maxDataPoints := some 100, range := some { fromMs := 10, toMs := 20 },
    rangeRaw := none, scopedVars := [], startTime := none, timezone := none,
    targets := [q_plain] }

def reqEmpty : DataQueryRequest := { req0 with targets := [] }

def reqUnknown : DataQueryRequest := { req0 with targets := [q_unknown] }

/-- C1: a batch request whose target list is empty after the filter (in
particular when the input list is empty) makes `query` return the immediate
successful empty result `of({ data: [] })`; the result holds for every
transport, and its constructor `immediate` records that no outbound call was
made. -/
theorem c1_empty_targets_short_circuit
    (ds : DataSourceWithBackend) (cfg : GrafanaConfig)
    (transport : FetchCall → Except TransportError RawReply)
    (decode : RawReply ⊕ TransportError → DataQueryResponse)
    (req : DataQueryRequest)
    (h : queryTargets ds req = []) :
    ds.query cfg transport decode req =
      QueryResult.immediate { data := [], error := none } := by
  unfold DataSourceWithBackend.query buildQueries
  rw [h]
  rfl

/-- Witness for C1 at a concrete empty-target request. -/
theorem c1_witness :
    dsPlain.query cfg0 transportOk toDataQueryResponse reqEmpty =
      QueryResult.immediate { data := [], error := none } :=
  c1_empty_targets_short_circuit dsPlain cfg0 transportOk toDataQueryResponse reqEmpty rfl

/-- C2: whenever `query` dispatched a payload (outcome `fetched call rsp`),
the response on the result channel is the value of the single decoding
routine applied to the transport outcome — the raw reply on success and the
raw error value itself on failure — so the caller always receives a
`DataQueryResponse` and never a raw transport exception. -/
theorem c2_failure_routed_through_decode
    (ds : DataSourceWithBackend) (cfg : GrafanaConfig)
    (transport : FetchCall → Except TransportError RawReply)
    (decode : RawReply ⊕ TransportError → DataQueryResponse)
    (req : DataQueryRequest) (call : FetchCall) (rsp : DataQueryResponse)
    (h : ds.query cfg transport decode req = QueryResult.fetched call rsp) :
    (∀ r, transport call = Except.ok r → rsp = decode (Sum.inl r)) ∧
    (∀ e, transport call = Except.error e → rsp = decode (Sum.inr e)) := by
  unfold DataSourceWithBackend.query at h
  cases hb : buildQueries ds cfg req with
  | error e => rw [hb] at h; exact absurd h (by simp)
  | ok queries =>
    rw [hb] at h
    dsimp only at h
    by_cases he : queries.isEmpty
    · rw [if_pos he] at h
      exact absurd h (by simp)
    · rw [if_neg he] at h
      cases ht : transport (queryCall queries req) with
      | ok r =>
        rw [ht] at h
        rcases h with ⟨⟩
        constructor
        · intro r2 hr2
          rw [ht] at hr2
          rcases hr2 with ⟨⟩
          rfl
        · intro e2 he2
          rw [ht] at he2
          exact absurd he2 (by simp)
      | error e =>
        rw [ht] at h
        rcases h with ⟨⟩
        constructor
        · intro r2 hr2
          rw [ht] at hr2
          exact absurd hr2 (by simp)
        · intro e2 he2
          rw [ht] at he2
          rcases he2 with ⟨⟩
          rfl

def callC2 : FetchCall :=
  { url := "/api/ds/query", method := "POST",
    data := { queries := [PayloadQuery.stdQuery q_plain 1 (some 30000) (some 100) 42],
              range := some { fromMs := 10, toMs := 20 },
              fromStr := some "10", toStr := some "20" },
    requestId := "r0" }

/-- Witness for C2: a concrete dispatched request whose transport fails with
error code 3 emits exactly the decode of that error value. -/
theorem c2_witness :
    ({ data := [], error := some 3 } : DataQueryResponse) =
      toDataQueryResponse (Sum.inr { code := 3 }) :=
  (c2_failure_routed_through_decode dsPlain cfg0 transportFail toDataQueryResponse req0
    callC2 { data := [], error := some 3 } (by decide)).2 { code := 3 } rfl

/-- C3: an expression-marked target is passed through unchanged, annotated
only with the client's own backend id and the organization id; the built
entry is the same for every `applyTemplateVariables` hook (the hook is never
invoked on it), and it carries no `intervalMs` or `maxDataPoints`
annotation. -/
theorem c3_expression_target_passthrough
    (selfId : Nat) (fq : Option (DataQuery → Bool))
    (atv : DataQuery → ScopedVars → DataQuery)
    (cfg : GrafanaConfig) (req : DataQueryRequest) (q : DataQuery)
    (h : q.datasource = some ExpressionDatasourceID) :
    buildQuery { id := selfId, filterQuery := fq, applyTemplateVariables := atv } cfg req q =
      Except.ok (PayloadQuery.exprQuery q selfId cfg.orgId) ∧
    (∀ atv2, buildQuery
        { id := selfId, filterQuery := fq, applyTemplateVariables := atv2 } cfg req q =
      buildQuery { id := selfId, filterQuery := fq, applyTemplateVariables := atv } cfg req q) ∧
    PayloadQuery.intervalTag (PayloadQuery.exprQuery q selfId cfg.orgId) = none ∧
    PayloadQuery.maxDataPointsTag (PayloadQuery.exprQuery q selfId cfg.orgId) = none := by
  refine ⟨?_, ?_, rfl, rfl⟩
  · unfold buildQuery
    rw [if_pos h]
  · intro atv2
    unfold buildQuery
    rw [if_pos h, if_pos h]

/-- Witness for C3 at a concrete expression-marked target. -/
theorem c3_witness :
    buildQuery dsPlain cfg0 req0 q_expr =
      Except.ok (PayloadQuery.exprQuery q_expr 1 42) :=
  (c3_expression_target_passthrough 1 none defaultApplyTemplateVariables cfg0 req0 q_expr
    rfl).1

/-- C4: a target with reference `"default"` resolves to the id of the
configured default-backend name in the lookup table; any truthy
non-expression reference whose (default-substituted) name is absent from the
table makes the build throw `Unknown Datasource` carrying the offending
(original) reference; and a build error makes the whole `query` return the
synchronous throw for every transport — no outbound call is made. -/
theorem c4_default_and_unknown_datasource
    (ds : DataSourceWithBackend) (cfg : GrafanaConfig) (req : DataQueryRequest)
    (q : DataQuery) :
    (∀ i, q.datasource = some "default" →
      cfg.datasources cfg.defaultDatasource = some i →
      buildQuery ds cfg req q =
        Except.ok (PayloadQuery.stdQuery (ds.applyTemplateVariables q req.scopedVars) i
          req.intervalMs req.maxDataPoints cfg.orgId)) ∧
    (truthyStr q.datasource = true →
      q.datasource ≠ some ExpressionDatasourceID →
      cfg.datasources (if q.datasource = some "default" then cfg.defaultDatasource
        else q.datasource.getD "") = none →
      buildQuery ds cfg req q =
        Except.error (BuildError.unknownDatasource (q.datasource.getD ""))) ∧
    (∀ e transport decode, buildQueries ds cfg req = Except.error e →
      ds.query cfg transport decode req = QueryResult.thrown e) := by
  refine ⟨?_, ?_, ?_⟩
  · intro i hds hlook
    unfold buildQuery
    rw [if_neg (by rw [hds]; decide), if_pos (by rw [hds]; decide)]
    rw [if_pos hds]
    dsimp only
    rw [hlook]
  · intro htr hne hlook
    unfold buildQuery
    rw [if_neg hne, if_pos htr]
    dsimp only
    rw [hlook]
  · intro e transport decode hb
    unfold DataSourceWithBackend.query
    rw [hb]

/-- Witness for C4: `"default"` resolves through the table entry of the
configured default name; an unknown name throws; the throw aborts the whole
batch with no outbound call. -/
theorem c4_witness :
    buildQuery dsPlain cfg0 req0 q_default =
      Except.ok (PayloadQuery.stdQuery q_default 7 (some 30000) (some 100) 42) ∧
    buildQuery dsPlain cfg0 req0 q_unknown =
      Except.error (BuildError.unknownDatasource "nope") ∧
    dsPlain.query cfg0 transportOk toDataQueryResponse reqUnknown =
      QueryResult.thrown (BuildError.unknownDatasource "nope") :=
  ⟨(c4_default_and_unknown_datasource dsPlain cfg0 req0 q_default).1 7 rfl (by decide),
   (c4_default_and_unknown_datasource dsPlain cfg0 req0 q_unknown).2.1 (by decide)
     (by decide) (by decide),
   (c4_default_and_unknown_datasource dsPlain cfg0 reqUnknown q_unknown).2.2
     (BuildError.unknownDatasource "nope") transportOk toDataQueryResponse rfl⟩

/-- The `queries` field of the body is the built query list, whether or not
a range block was attached. -/
theorem mkBody_queries (qs : List PayloadQuery) (r : Option TimeRange) :
    (mkBody qs r).queries = qs := by
  cases r <;> rfl

/-- Inversion of a dispatched `query` run: the outcome `fetched call rsp`
determines the built query list, the call shape, and the decoded response. -/
theorem query_fetched_inversion
    (ds : DataSourceWithBackend) (cfg : GrafanaConfig)
    (transport : FetchCall → Except TransportError RawReply)
    (decode : RawReply ⊕ TransportError → DataQueryResponse)
    (req : DataQueryRequest) (call : FetchCall) (rsp : DataQueryResponse)
    (h : ds.query cfg transport decode req = QueryResult.fetched call rsp) :
    ∃ queries, buildQueries ds cfg req = Except.ok queries ∧
      queries.isEmpty = false ∧ call = queryCall queries req := by
  unfold DataSourceWithBackend.query at h
  cases hb : buildQueries ds cfg req with
  | error e => rw [hb] at h; exact absurd h (by simp)
  | ok queries =>
    rw [hb] at h
    dsimp only at h
    by_cases he : queries.isEmpty
    · rw [if_pos he] at h
      exact absurd h (by simp)
    · rw [if_neg he] at h
      refine ⟨queries, rfl, by simpa using he, ?_⟩
      cases ht : transport (queryCall queries req) with
      | ok r => rw [ht] at h; rcases h with ⟨⟩; rfl
      | error e => rw [ht] at h; rcases h with ⟨⟩; rfl

/-- C8: the outbound payload carries a time-range block exactly when the
request has a range, and the block then holds both the native range object
and the string-encoded millisecond bounds of its endpoints. -/
theorem c8_range_block_iff_range
    (ds : DataSourceWithBackend) (cfg : GrafanaConfig)
    (transport : FetchCall → Except TransportError RawReply)
    (decode : RawReply ⊕ TransportError → DataQueryResponse)
    (req : DataQueryRequest) (call : FetchCall) (rsp : DataQueryResponse)
    (h : ds.query cfg transport decode req = QueryResult.fetched call rsp) :
    call.data.range = req.range ∧
    (∀ tr, req.range = some tr →
      call.data.fromStr = some (toString tr.fromMs) ∧
      call.data.toStr = some (toString tr.toMs)) ∧
    (req.range = none →
      call.data.fromStr = none ∧ call.data.toStr = none) := by
  obtain ⟨queries, _, _, hcall⟩ := query_fetched_inversion ds cfg transport decode req call rsp h
  subst hcall
  cases hr : req.range with
  | none =>
    refine ⟨?_, ?_, ?_⟩
    · simp [queryCall, mkBody, hr]
    · intro tr htr; exact absurd htr (by simp)
    · intro _; constructor <;> simp [queryCall, mkBody, hr]
  | some tr0 =>
    refine ⟨?_, ?_, ?_⟩
    · simp [queryCall, mkBody, hr]
    · intro tr htr
      rcases htr with ⟨⟩
      constructor <;> simp [queryCall, mkBody, hr]
    · intro hn; exact absurd hn (by simp)

/-- Witness for C8 at a concrete one-target request with range `[10, 20]`. -/
theorem c8_witness :
    callC2.data.range = req0.range ∧
    (∀ tr, req0.range = some tr →
      callC2.data.fromStr = some (toString tr.fromMs) ∧
      callC2.data.toStr = some (toString tr.toMs)) ∧
    (req0.range = none → callC2.data.fromStr = none ∧ callC2.data.toStr = none) :=
  c8_range_block_iff_range dsPlain cfg0 transportFail toDataQueryResponse req0
    callC2 { data := [], error := some 3 } (by decide)

/-- Element-wise shape of a successful `targets.map(...)` traversal: the
output list has the input's length and its `i`-th entry is the build of the
`i`-th input. -/
theorem buildQueriesGo_pointwise (ds : DataSourceWithBackend) (cfg : GrafanaConfig)
    (req : DataQueryRequest) :
    ∀ (xs : List DataQuery) (l : List PayloadQuery),
      buildQueriesGo ds cfg req xs = Except.ok l →
      l.length = xs.length ∧
      ∀ i (hx : i < xs.length) (hl : i < l.length),
        buildQuery ds cfg req xs[i] = Except.ok l[i] := by
  intro xs
  induction xs with
  | nil =>
    intro l h
    unfold buildQueriesGo at h
    rcases h with ⟨⟩
    exact ⟨rfl, fun i hx _ => absurd hx (by simp)⟩
  | cons q qs ih =>
    intro l h
    unfold buildQueriesGo at h
    cases hq : buildQuery ds cfg req q with
    | error e => rw [hq] at h; exact absurd h (by simp)
    | ok pq =>
      rw [hq] at h
      cases hrest : buildQueriesGo ds cfg req qs with
      | error e => rw [hrest] at h; exact absurd h (by simp)
      | ok rest =>
        rw [hrest] at h
        dsimp only at h
        rcases h with ⟨⟩
        obtain ⟨hlen, hpt⟩ := ih rest hrest
        refine ⟨by simp [hlen], ?_⟩
        intro i hx hl
        cases i with
        | zero => simpa using hq
        | succ n =>
          have hx2 : n < qs.length := by simpa using hx
          have hl2 : n < rest.length := by simpa using hl
          simpa using hpt n hx2 hl2

/-- C9: the outbound payload preserves the order of the input target list —
it is exactly the filtered input annotated element-wise, with no
reordering. -/
theorem c9_payload_order_preserved
    (ds : DataSourceWithBackend) (cfg : GrafanaConfig)
    (transport : FetchCall → Except TransportError RawReply)
    (decode : RawReply ⊕ TransportError → DataQueryResponse)
    (req : DataQueryRequest) (call : FetchCall) (rsp : DataQueryResponse)
    (h : ds.query cfg transport decode req = QueryResult.fetched call rsp) :
    call.data.queries.length = (queryTargets ds req).length ∧
    ∀ i (hx : i < (queryTargets ds req).length) (hl : i < call.data.queries.length),
      buildQuery ds cfg req (queryTargets ds req)[i] = Except.ok call.data.queries[i] := by
  obtain ⟨queries, hb, _, hcall⟩ := query_fetched_inversion ds cfg transport decode req call rsp h
  subst hcall
  rw [queryCall, mkBody_queries]
  exact buildQueriesGo_pointwise ds cfg req (queryTargets ds req) queries hb

/-- Witness for C9 at a concrete one-target request. -/
theorem c9_witness :
    callC2.data.queries.length = (queryTargets dsPlain req0).length ∧
    ∀ i (hx : i < (queryTargets dsPlain req0).length)
      (hl : i < callC2.data.queries.length),
      buildQuery dsPlain cfg0 req0 (queryTargets dsPlain req0)[i] =
        Except.ok callC2.data.queries[i] :=
  c9_payload_order_preserved dsPlain cfg0 transportFail toDataQueryResponse req0
    callC2 { data := [], error := some 3 } (by decide)

/-- The substituted query of a payload entry (`none` for the expression
pass-through branch). -/
def PayloadQuery.subbedQuery : PayloadQuery → Option DataQuery
  | .exprQuery _ _ _ => none
  | .stdQuery q2 _ _ _ _ => some q2

/-- C10: every non-expression target that builds successfully is annotated
with `applyTemplateVariables` applied at the single request-level
scoped-variables mapping (the same `request.scopedVars` for every target of
the batch — no per-target scoping), together with the shared
`intervalMs`/`maxDataPoints`; and the base-class hook returns its input
unchanged. -/
theorem c10_scoped_vars_request_level
    (ds : DataSourceWithBackend) (cfg : GrafanaConfig) (req : DataQueryRequest)
    (q : DataQuery) :
    (q.datasource ≠ some ExpressionDatasourceID →
      ∀ pq, buildQuery ds cfg req q = Except.ok pq →
        PayloadQuery.subbedQuery pq = some (ds.applyTemplateVariables q req.scopedVars) ∧
        PayloadQuery.intervalTag pq = some req.intervalMs ∧
        PayloadQuery.maxDataPointsTag pq = some req.maxDataPoints) ∧
    (∀ q2 sv, defaultApplyTemplateVariables q2 sv = q2) := by
  constructor
  · intro hne pq h
    unfold buildQuery at h
    rw [if_neg hne] at h
    by_cases htr : truthyStr q.datasource
    · rw [if_pos htr] at h
      dsimp only at h
      cases hlook : cfg.datasources (if q.datasource = some "default" then
          cfg.defaultDatasource else q.datasource.getD "") with
      | none => rw [hlook] at h; exact absurd h (by simp)
      | some dsId =>
        rw [hlook] at h
        rcases h with ⟨⟩
        exact ⟨rfl, rfl, rfl⟩
    · rw [if_neg htr] at h
      rcases h with ⟨⟩
      exact ⟨rfl, rfl, rfl⟩
  · intro q2 sv
    rfl

def atvMark : DataQuery → ScopedVars → DataQuery :=
  fun q sv => { q with payload := q.payload + sv.length }

def dsMark : DataSourceWithBackend :=
  { id := 1, filterQuery := none, applyTemplateVariables := atvMark }

def reqVars : DataQueryRequest := { req0 with scopedVars := [("k", "v")] }

def pqMarked : PayloadQuery :=
  PayloadQuery.stdQuery { q_plain with payload := 1 } 1 (some 30000) (some 100) 42

/-- Witness for C10 with a hook that records the scoped-variable mapping it
received. -/
theorem c10_witness :
    PayloadQuery.subbedQuery pqMarked =
      some (dsMark.applyTemplateVariables q_plain reqVars.scopedVars) ∧
    PayloadQuery.intervalTag pqMarked = some reqVars.intervalMs ∧
    PayloadQuery.maxDataPointsTag pqMarked = some reqVars.maxDataPoints :=
  (c10_scoped_vars_request_level dsMark cfg0 reqVars q_plain).1 (by decide)
    pqMarked rfl

/-! Annotation fixtures. -/

def annoOn : AnnotationQueryRequest :=
  { range := some { fromMs := 10, toMs := 20 }, rangeRaw := none,
    interval := none, intervalMs := none,
    dashboard := { timezone := "utc" },
    annotationSpec := { enable := true, inlineQuery := some q_plain } }

def annoOff : AnnotationQueryRequest :=
  { annoOn with annotationSpec := { enable := false, inlineQuery := some q_plain } }

def annoNoQuery : AnnotationQueryRequest :=
  { annoOn with annotationSpec := { enable := true, inlineQuery := none } }

def prepNone : AnnotationQueryRequest → PreparedAnno :=
  fun _ => { queryOpt := none, processor := none }

def prepPlain : AnnotationQueryRequest → PreparedAnno :=
  fun _ => { queryOpt := some q_plain,
             processor := some (fun _ => [{ time := 1, text := "proc" }]) }

def extractC : Frame → List AnnotationEvent :=
  fun f => [{ time := f.frameId, text := "evt" }]

/-- C5: in both revisions of `annotationQuery`, a disabled annotation, or one
with no resolvable query payload (the preparation hook absent or yielding
nothing in the first revision; the hook yielding nothing, or hook absent and
no inline query, in the second) resolves to the empty event list, with the
empty call trace recording that the transport was never invoked. -/
theorem c5_annotation_gate_short_circuit
    (ds : DataSourceWithBackend) (cfg : GrafanaConfig)
    (transport : FetchCall → Except TransportError RawReply)
    (decode : RawReply ⊕ TransportError → DataQueryResponse)
    (extract : Frame → List AnnotationEvent)
    (now : Nat) (options : AnnotationQueryRequest) :
    (∀ prepare, options.annotationSpec.enable = false →
      annotationQueryA ds cfg transport decode prepare extract now options =
        AnnoResult.resolved [] []) ∧
    (annotationQueryA ds cfg transport decode none extract now options =
      AnnoResult.resolved [] []) ∧
    (∀ prep, (prep options).queryOpt = none →
      annotationQueryA ds cfg transport decode (some prep) extract now options =
        AnnoResult.resolved [] []) ∧
    (∀ prepare, options.annotationSpec.enable = false →
      annotationQueryB ds cfg transport decode prepare extract now options =
        AnnoResult.resolved [] []) ∧
    (∀ prepare, resolveAnnoQueryB prepare options = none →
      annotationQueryB ds cfg transport decode prepare extract now options =
        AnnoResult.resolved [] []) := by
  refine ⟨?_, ?_, ?_, ?_, ?_⟩
  · intro prepare hoff
    unfold annotationQueryA
    cases prepare with
    | none => rfl
    | some prep => rw [hoff]; rfl
  · rfl
  · intro prep hq
    unfold annotationQueryA
    cases hoff : options.annotationSpec.enable with
    | false => rfl
    | true =>
      dsimp only
      rw [hq, if_neg (by decide)]
  · intro prepare hoff
    unfold annotationQueryB
    cases hres : resolveAnnoQueryB prepare options with
    | none => rfl
    | some q => rw [hoff]; rfl
  · intro prepare hres
    unfold annotationQueryB
    rw [hres]

/-- Witness for C5: a disabled annotation, an absent hook, a hook yielding
no query, and (second revision) no hook plus no inline query all resolve to
`[]` without any transport call. -/
theorem c5_witness :
    annotationQueryA dsPlain cfg0 transportOk toDataQueryResponse (some prepPlain)
      extractC 5 annoOff = AnnoResult.resolved [] [] ∧
    annotationQueryA dsPlain cfg0 transportOk toDataQueryResponse none
      extractC 5 annoOn = AnnoResult.resolved [] [] ∧
    annotationQueryA dsPlain cfg0 transportOk toDataQueryResponse (some prepNone)
      extractC 5 annoOn = AnnoResult.resolved [] [] ∧
    annotationQueryB dsPlain cfg0 transportOk toDataQueryResponse none
      extractC 5 annoOff = AnnoResult.resolved [] [] ∧
    annotationQueryB dsPlain cfg0 transportOk toDataQueryResponse none
      extractC 5 annoNoQuery = AnnoResult.resolved [] [] :=
  ⟨(c5_annotation_gate_short_circuit dsPlain cfg0 transportOk toDataQueryResponse
      extractC 5 annoOff).1 (some prepPlain) rfl,
   (c5_annotation_gate_short_circuit dsPlain cfg0 transportOk toDataQueryResponse
      extractC 5 annoOn).2.1,
   (c5_annotation_gate_short_circuit dsPlain cfg0 transportOk toDataQueryResponse
      extractC 5 annoOn).2.2.1 prepNone rfl,
   (c5_annotation_gate_short_circuit dsPlain cfg0 transportOk toDataQueryResponse
      extractC 5 annoOff).2.2.2.1 none rfl,
   (c5_annotation_gate_short_circuit dsPlain cfg0 transportOk toDataQueryResponse
      extractC 5 annoNoQuery).2.2.2.2 none rfl⟩

/-- A dispatched `query` whose transport call fails emits the decode of the
error value. -/
theorem query_dispatch_error
    (ds : DataSourceWithBackend) (cfg : GrafanaConfig)
    (transport : FetchCall → Except TransportError RawReply)
    (decode : RawReply ⊕ TransportError → DataQueryResponse)
    (req : DataQueryRequest) (l : List PayloadQuery) (e : TransportError)
    (hb : buildQueries ds cfg req = Except.ok l) (hne : l.isEmpty = false)
    (ht : transport (queryCall l req) = Except.error e) :
    ds.query cfg transport decode req =
      QueryResult.fetched (queryCall l req) (decode (Sum.inr e)) := by
  unfold DataSourceWithBackend.query
  rw [hb]
  dsimp only
  rw [if_neg (by simp [hne]), ht]

/-- C6: in both revisions, an annotation request that passes the gate and
whose dispatched transport call fails resolves to the empty event list (the
failure value is normalized by the decoding routine — modelled from the spec
as producing a failure result with no frames — and the `.then` handler maps
a frameless response to `[]`), never to a rejected outcome. -/
theorem c6_dispatch_failure_degrades_to_empty
    (ds : DataSourceWithBackend) (cfg : GrafanaConfig)
    (transport : FetchCall → Except TransportError RawReply)
    (extract : Frame → List AnnotationEvent)
    (now : Nat) (options : AnnotationQueryRequest) :
    (∀ prep q l e, options.annotationSpec.enable = true →
      (prep options).queryOpt = some q →
      buildQueries ds cfg (composeAnnoRequestA options now q) = Except.ok l →
      l.isEmpty = false →
      transport (queryCall l (composeAnnoRequestA options now q)) = Except.error e →
      annotationQueryA ds cfg transport toDataQueryResponse (some prep) extract now
          options =
        AnnoResult.resolved [] [queryCall l (composeAnnoRequestA options now q)]) ∧
    (∀ prepare q l e, options.annotationSpec.enable = true →
      resolveAnnoQueryB prepare options = some q →
      buildQueries ds cfg (composeAnnoRequestB options now q) = Except.ok l →
      l.isEmpty = false →
      transport (queryCall l (composeAnnoRequestB options now q)) = Except.error e →
      annotationQueryB ds cfg transport toDataQueryResponse prepare extract now
          options =
        AnnoResult.resolved [] [queryCall l (composeAnnoRequestB options now q)]) := by
  constructor
  · intro prep q l e hon hq hb hne ht
    unfold annotationQueryA
    dsimp only
    rw [hon, if_neg (by decide), hq]
    dsimp only
    rw [query_dispatch_error ds cfg transport toDataQueryResponse
      (composeAnnoRequestA options now q) l e hb hne ht]
    rfl
  · intro prepare q l e hon hres hb hne ht
    unfold annotationQueryB
    rw [hres]
    dsimp only
    rw [hon, if_neg (by decide)]
    rw [query_dispatch_error ds cfg transport toDataQueryResponse
      (composeAnnoRequestB options now q) l e hb hne ht]
    rfl

/-- Witness for C6: a concrete enabled annotation whose dispatch fails with
a network error resolves to `[]` in both revisions. -/
theorem c6_witness :
    annotationQueryA dsPlain cfg0 transportFail toDataQueryResponse (some prepPlain)
      extractC 5 annoOn =
      AnnoResult.resolved []
        [queryCall [PayloadQuery.stdQuery q_plain 1 none none 42]
          (composeAnnoRequestA annoOn 5 q_plain)] ∧
    annotationQueryB dsPlain cfg0 transportFail toDataQueryResponse none
      extractC 5 annoOn =
      AnnoResult.resolved []
        [queryCall [PayloadQuery.stdQuery q_plain 1 (some 60000) none 42]
          (composeAnnoRequestB annoOn 5 q_plain)] :=
  ⟨(c6_dispatch_failure_degrades_to_empty dsPlain cfg0 transportFail extractC 5
      annoOn).1 prepPlain q_plain [PayloadQuery.stdQuery q_plain 1 none none 42]
      { code := 3 } rfl rfl rfl rfl rfl,
   (c6_dispatch_failure_degrades_to_empty dsPlain cfg0 transportFail extractC 5
      annoOn).2 none q_plain [PayloadQuery.stdQuery q_plain 1 (some 60000) none 42]
      { code := 3 } rfl rfl rfl rfl rfl⟩

/-- C7 counterexample: at a concrete annotation request with no interval
fields, the batch request composed by the first revision's `annotationQuery`
(which spreads the annotation request instead of defaulting) does NOT carry
the claimed defaults `'1m'` / `60000` — its interval fields stay absent. -/
theorem c7_counterexample :
    ¬((composeAnnoRequestA annoOn 5 q_plain).interval = some "1m" ∧
      (composeAnnoRequestA annoOn 5 q_plain).intervalMs = some 60000) := by
  decide

/-- C7 (amended): in both revisions the composed single-target batch request
has requestId `"anno-" ++ now`, an empty scoped-variables mapping, the
dashboard's timezone and the copied range; the second revision additionally
defaults `interval`/`intervalMs` to `'1m'`/`60000` when they are absent (or
falsy), while the first revision passes `interval`/`intervalMs` through from
the annotation request unchanged — absent stays absent. -/
theorem c7_composed_request_fields
    (options : AnnotationQueryRequest) (now : Nat) (q : DataQuery) :
    (composeAnnoRequestB options now q).requestId = "anno-" ++ toString now ∧
    (composeAnnoRequestB options now q).scopedVars = [] ∧
    (composeAnnoRequestB options now q).timezone = some options.dashboard.timezone ∧
    (composeAnnoRequestB options now q).range = options.range ∧
    (composeAnnoRequestB options now q).targets = [q] ∧
    (composeAnnoRequestB options now q).interval = some (jsOrStr options.interval "1m") ∧
    (composeAnnoRequestB options now q).intervalMs =
      some (jsOrNat options.intervalMs 60000) ∧
    (options.interval = none → (composeAnnoRequestB options now q).interval = some "1m") ∧
    (options.intervalMs = none →
      (composeAnnoRequestB options now q).intervalMs = some 60000) ∧
    (composeAnnoRequestA options now q).requestId = "anno-" ++ toString now ∧
    (composeAnnoRequestA options now q).scopedVars = [] ∧
    (composeAnnoRequestA options now q).timezone = some options.dashboard.timezone ∧
    (composeAnnoRequestA options now q).range = options.range ∧
    (composeAnnoRequestA options now q).targets = [q] ∧
    (composeAnnoRequestA options now q).interval = options.interval ∧
    (composeAnnoRequestA options now q).intervalMs = options.intervalMs := by
  refine ⟨rfl, rfl, rfl, rfl, rfl, rfl, rfl, ?_, ?_, rfl, rfl, rfl, rfl, rfl, rfl, rfl⟩
  · intro h; rw [show (composeAnnoRequestB options now q).interval =
      some (jsOrStr options.interval "1m") from rfl, h]; rfl
  · intro h; rw [show (composeAnnoRequestB options now q).intervalMs =
      some (jsOrNat options.intervalMs 60000) from rfl, h]; rfl

/-- Witness for C7 (amended) at a concrete annotation request with absent
interval fields: the second revision defaults them, the first passes the
absence through. -/
theorem c7_witness :
    (composeAnnoRequestB annoOn 5 q_plain).interval = some "1m" ∧
    (composeAnnoRequestB annoOn 5 q_plain).intervalMs = some 60000 ∧
    (composeAnnoRequestA annoOn 5 q_plain).interval = none ∧
    (composeAnnoRequestA annoOn 5 q_plain).requestId = "anno-" ++ toString 5 :=
  ⟨(c7_composed_request_fields annoOn 5 q_plain).2.2.2.2.2.2.2.1 rfl,
   (c7_composed_request_fields annoOn 5 q_plain).2.2.2.2.2.2.2.2.1 rfl,
   (c7_composed_request_fields annoOn 5 q_plain).2.2.2.2.2.2.2.2.2.2.2.2.2.2.1,
   (c7_composed_request_fields annoOn 5 q_plain).2.2.2.2.2.2.2.2.2.1⟩
